import Mathlib

/-!
Verification of the camina-drummer MIDI practice player.

The embedding models the two source modules that carry the algorithmic
content: `midi_player.py` (playback loop and the BPM estimator
`estimate_midi_bpm`) and `utils/tempo.py` (`TempoUtil.calculate_tempo_factor`
and `TempoUtil.detect_original_bpm`).

Both modules consume `mido.MidiFile` objects.  A `MidiFile` is modelled by
its merged track: the ordered list of messages with delta times in ticks,
plus the `ticks_per_beat` (PPQN) resolution from the header.  Iterating a
`mido.MidiFile` in Python yields the merged messages with each delta time
converted to seconds using the tempo in force (mido applies a pending
`set_tempo` to the deltas of the following messages, starting from the
MIDI default of 500000 microseconds per quarter note); `midiIter` models
that iteration.  Python floats are modelled by exact rationals, extended
with the symbolic values `inf`, `-inf` and `nan` where the tempo-input
parsing can produce them.
-/

namespace CaminaDrummer

/-- Tag of a mido message, as dispatched on by the source (`msg.type`). -/
inductive MsgType
  | note_on
  | note_off
  | program_change
  | set_tempo
  | other_meta
  | other
  deriving DecidableEq

/-- `msg.is_meta` for each message tag: meta messages are `set_tempo` and the
remaining meta events (`end_of_track`, time signatures, ...), grouped under
`other_meta`. -/
def MsgType.is_meta : MsgType → Bool
  | MsgType.set_tempo => true
  | MsgType.other_meta => true
  | _ => false

/-- One message of the merged track, delta `time` in ticks.  Fields that a
given tag does not use are carried as zero. -/
structure TrackMsg where
  type : MsgType
  time : ℕ
  channel : ℕ
  note : ℕ
  velocity : ℕ
  program : ℕ
  tempo : ℕ
  deriving DecidableEq

/-- A parsed `mido.MidiFile`: header resolution and the merged track. -/
structure MidiFile where
  ticks_per_beat : ℕ
  track : List TrackMsg
  deriving DecidableEq

/-- A message as yielded by iterating a `mido.MidiFile`: the same fields,
but `time` converted to seconds. -/
structure SecMsg where
  type : MsgType
  time : ℚ
  channel : ℕ
  note : ℕ
  velocity : ℕ
  program : ℕ
  tempo : ℕ
  deriving DecidableEq

/-- Default `SecMsg`, used only as the out-of-range value of `List.getD`. -/
def dSec : SecMsg := SecMsg.mk MsgType.other 0 0 0 0 0 0

/-- mido `tick2second(tick, ticks_per_beat, tempo)`:
`tick * tempo / (1e6 * ticks_per_beat)` seconds. -/
def tick2second (tick : ℚ) (ticks_per_beat : ℕ) (tempo : ℕ) : ℚ :=
  tick * (tempo : ℚ) / (1000000 * (ticks_per_beat : ℚ))

/-- mido `tempo2bpm(tempo)` (default 4/4 time signature):
`60_000_000 / tempo`. -/
def tempo2bpm (tempo : ℕ) : ℚ :=
  60000000 / (tempo : ℚ)

/-- Loop of `mido.MidiFile.__iter__`: converts each delta to seconds with the
running tempo, then updates the tempo after a `set_tempo` message. -/
def midiIterGo (tpb : ℕ) : ℕ → List TrackMsg → List SecMsg
  | _, [] => []
  | tempo, msg :: rest =>
    SecMsg.mk msg.type (tick2second (msg.time : ℚ) tpb tempo) msg.channel msg.note
        msg.velocity msg.program msg.tempo ::
      midiIterGo tpb (if msg.type = MsgType.set_tempo then msg.tempo else tempo) rest

/-- Iterating a `mido.MidiFile` (`for msg in midi`): merged messages with
delta times in seconds, starting from the default tempo 500000. -/
def midiIter (m : MidiFile) : List SecMsg :=
  midiIterGo m.ticks_per_beat 500000 m.track

/-- First loop of `estimate_midi_bpm`: skip non-meta messages entirely, add
each meta message's delta to the running absolute position, and record a
`(absolute, tempo)` pair at each `set_tempo` message. -/
def collectBreakpoints : ℚ → List SecMsg → List (ℚ × ℕ)
  | _, [] => []
  | acc, msg :: rest =>
    if msg.type.is_meta = false then collectBreakpoints acc rest
    else
      if msg.type = MsgType.set_tempo then
        (acc + msg.time, msg.tempo) :: collectBreakpoints (acc + msg.time) rest
      else collectBreakpoints (acc + msg.time) rest

/-- The `tempo_changes` list that `estimate_midi_bpm` builds from a file. -/
def tempoBreakpoints (m : MidiFile) : List (ℚ × ℕ) :=
  collectBreakpoints 0 (midiIter m)

/-- `total_ticks = sum(msg.time for msg in midi)` of `estimate_midi_bpm`:
the sum of the iterated delta times of all messages. -/
def trackTotalSeconds (m : MidiFile) : ℚ :=
  ((midiIter m).map SecMsg.time).sum

/-- Accumulation of `total_seconds` over the consecutive breakpoint pairs of
`estimate_midi_bpm`: for each pair, `mido.tick2second` of the difference of
the absolute positions, taken at the earlier entry's tempo. -/
def segSeconds (tpb : ℕ) : List (ℚ × ℕ) → ℚ
  | p :: q :: rest => tick2second (q.1 - p.1) tpb p.2 + segSeconds tpb (q :: rest)
  | _ => 0

/-- Accumulation of `weighted_bpm_sum` over the consecutive breakpoint pairs
of `estimate_midi_bpm`: each segment duration weighted by its
`mido.tempo2bpm`. -/
def segWeighted (tpb : ℕ) : List (ℚ × ℕ) → ℚ
  | p :: q :: rest =>
    tempo2bpm p.2 * tick2second (q.1 - p.1) tpb p.2 + segWeighted tpb (q :: rest)
  | _ => 0

/-- `estimate_midi_bpm(midi_file_path)` of `midi_player.py`.  The argument is
`none` when `mido.MidiFile` raises (unreadable or malformed file), which the
function turns into the 120.0 fallback.  A zero `ticks_per_beat` makes every
run end in a `ZeroDivisionError` caught by the same handler (every reachable
branch then yields 120.0), modelled by the first guard; a `set_tempo` value
of zero makes `mido.tempo2bpm` raise, caught the same way, modelled by the
`any` guard. -/
def estimate_midi_bpm (f : Option MidiFile) : ℚ :=
  match f with
  | none => 120
  | some m =>
    if m.ticks_per_beat = 0 then 120
    else
      let tcs := tempoBreakpoints m
      if tcs.isEmpty then tempo2bpm 500000
      else if tcs.any (fun p => p.2 = 0) then 120
      else
        let bps := tcs ++ [(trackTotalSeconds m, 0)]
        let totalSec := segSeconds m.ticks_per_beat bps
        if totalSec = 0 then tempo2bpm 500000
        else segWeighted m.ticks_per_beat bps / totalSec

/-- Loop of `TempoUtil.detect_original_bpm`: first `set_tempo` message wins.
mido's iteration raises `ZeroDivisionError` while converting a positive delta
when `ticks_per_beat` is zero, and `mido.tempo2bpm` raises on a zero tempo;
both are caught by the surrounding handler, yielding the 120.0 fallback. -/
def detectGo (tpb : ℕ) : List TrackMsg → ℚ
  | [] => 120
  | msg :: rest =>
    if tpb = 0 ∧ 0 < msg.time then 120
    else if msg.type = MsgType.set_tempo then
      if msg.tempo = 0 then 120 else tempo2bpm msg.tempo
    else detectGo tpb rest

/-- `TempoUtil.detect_original_bpm(midi_path)` of `utils/tempo.py`; `none`
models a path `mido.MidiFile` cannot read. -/
def detect_original_bpm (f : Option MidiFile) : ℚ :=
  match f with
  | none => 120
  | some m => detectGo m.ticks_per_beat m.track

/-- A Python float value as far as `calculate_tempo_factor` can observe one:
an exact rational for the finite values, plus the three special values the
text parse can produce. -/
inductive PyFloat
  | finite (q : ℚ)
  | posInf
  | negInf
  | nan
  deriving DecidableEq

/-- Python `v > 0` on a parsed float (false for `nan`). -/
def pyGtZero : PyFloat → Bool
  | PyFloat.finite q => decide (0 < q)
  | PyFloat.posInf => true
  | PyFloat.negInf => false
  | PyFloat.nan => false

/-- Python `v <= 0` on a parsed float (false for `nan`). -/
def pyLeZero : PyFloat → Bool
  | PyFloat.finite q => decide (q ≤ 0)
  | PyFloat.posInf => false
  | PyFloat.negInf => true
  | PyFloat.nan => false

/-- Python division `a / v` of a finite float by a parsed float: by a finite
value it is exact (the guards of the source keep the denominator nonzero
where this is used), by an infinity it is (signed) zero, by `nan` it is
`nan`. -/
def pyDivNum (a : ℚ) : PyFloat → PyFloat
  | PyFloat.finite q => PyFloat.finite (a / q)
  | PyFloat.posInf => PyFloat.finite 0
  | PyFloat.negInf => PyFloat.finite 0
  | PyFloat.nan => PyFloat.nan

/-- Python unary minus on a parsed float. -/
def pyNeg : PyFloat → PyFloat
  | PyFloat.finite q => PyFloat.finite (-q)
  | PyFloat.posInf => PyFloat.negInf
  | PyFloat.negInf => PyFloat.posInf
  | PyFloat.nan => PyFloat.nan

/-- The value is a strictly positive (finite) number.  `nan` and the
infinities are not strictly positive. -/
def pyIsPos : PyFloat → Prop
  | PyFloat.finite q => 0 < q
  | _ => False

/-- Python `str.strip()`: drop leading and trailing whitespace. -/
def stripChars (l : List Char) : List Char :=
  ((l.dropWhile Char.isWhitespace).reverse.dropWhile Char.isWhitespace).reverse

/-- Read a run of decimal digits: accumulated value, digit count, rest. -/
def digitsAux (acc n : ℕ) : List Char → ℕ × ℕ × List Char
  | [] => (acc, n, [])
  | c :: cs =>
    if c.isDigit then digitsAux (10 * acc + (c.toNat - 48)) (n + 1) cs
    else (acc, n, c :: cs)

/-- Read an optional sign; returns whether it was a minus, and the rest. -/
def readSign : List Char → Bool × List Char
  | '+' :: cs => (false, cs)
  | '-' :: cs => (true, cs)
  | cs => (false, cs)

/-- Read the optional exponent suffix after a mantissa and require the end of
the text, as Python `float` does.  Exponents are applied exactly (the
overflow of very large exponents to `inf` is not modelled; no claim
exercises it). -/
def readExponent (mant : ℚ) : List Char → Option PyFloat
  | [] => some (PyFloat.finite mant)
  | c :: cs =>
    if c = 'e' ∨ c = 'E' then
      match readSign cs with
      | (eneg, cs2) =>
        match digitsAux 0 0 cs2 with
        | (ev, ne, r) =>
          if ne = 0 ∨ r ≠ [] then none
          else some (PyFloat.finite
            (if eneg then mant / (10 : ℚ) ^ ev else mant * (10 : ℚ) ^ ev))
    else none

/-- Read the unsigned part of a Python float literal: `inf`, `infinity` and
`nan` (case-insensitive), or digits with an optional fraction and
exponent. -/
def readMagnitude (cs : List Char) : Option PyFloat :=
  let low := cs.map Char.toLower
  if low = [ 'i', 'n', 'f'] ∨ low = [ 'i', 'n', 'f', 'i', 'n', 'i', 't', 'y'] then
    some PyFloat.posInf
  else if low = [ 'n', 'a', 'n'] then some PyFloat.nan
  else
    match digitsAux 0 0 cs with
    | (ip, ni, r1) =>
      match r1 with
      | '.' :: r2 =>
        match digitsAux 0 0 r2 with
        | (fp, nf, r3) =>
          if ni + nf = 0 then none
          else readExponent ((ip : ℚ) + (fp : ℚ) / (10 : ℚ) ^ nf) r3
      | _ => if ni = 0 then none else readExponent (ip : ℚ) r1

/-- Python `float(text)` on already-stripped text: `none` models the
`ValueError` raised on text that is not a float literal. -/
def floatOfChars (cs : List Char) : Option PyFloat :=
  match cs with
  | [] => none
  | _ =>
    match readSign cs with
    | (neg, rest) => (readMagnitude rest).map (fun v => if neg then pyNeg v else v)

/-- `TempoMode` of `utils/tempo.py` (values "BPM" and "Percentage"). -/
inductive TempoMode
  | BPM
  | PERCENTAGE
  deriving DecidableEq

/-- `TempoUtil.calculate_tempo_factor(midi_path, user_input, mode)`.
`user_input = none` models Python `None`; the falsy check covers `None` and
the empty string, then the stripped text is parsed (`ValueError` giving
factor 1.0).  Percentage mode returns `100.0 / percent` for a positive
percent, else 1.0; BPM mode returns 1.0 for a non-positive desired BPM and
otherwise divides `detect_original_bpm` of the file by it. -/
def calculate_tempo_factor (midi_path : Option MidiFile) (user_input : Option String)
    (mode : TempoMode) : PyFloat :=
  match user_input with
  | none => PyFloat.finite 1
  | some s =>
    if s = "" then PyFloat.finite 1
    else
      match floatOfChars (stripChars s.toList) with
      | none => PyFloat.finite 1
      | some v =>
        match mode with
        | TempoMode.PERCENTAGE =>
          if pyGtZero v = true then pyDivNum 100 v else PyFloat.finite 1
        | TempoMode.BPM =>
          if pyLeZero v = true then PyFloat.finite 1
          else pyDivNum (detect_original_bpm midi_path) v

/-- Live mute flags of the player (`self.mute_drums`, `self.mute_others`),
mutable by the controller at any time. -/
structure MuteFlags where
  mute_drums : Bool
  mute_others : Bool
  deriving DecidableEq

/-- Calls `_play_thread_func` can make on the FluidSynth sink. -/
inductive SinkCall
  | noteon (channel note velocity : ℕ)
  | noteoff (channel note : ℕ)
  | program_change (channel program : ℕ)
  deriving DecidableEq

/-- Whether a sink call is a note event (rather than a program change). -/
def SinkCall.isNote : SinkCall → Bool
  | SinkCall.noteon _ _ _ => true
  | SinkCall.noteoff _ _ => true
  | SinkCall.program_change _ _ => false

/-- Wall-clock time slept for a computed wait: `time.sleep(wait)` is guarded
by `if wait > 0.0`. -/
def pyWait (w : ℚ) : ℚ :=
  if 0 < w then w else 0

/-- Body of the dispatch chain of `_play_thread_func` for one message, given
the mute flags and the value `self._stop_flag` reads as at the dispatch
check: `note_on`/`note_off` are forwarded unless the stop flag is set or
`(mute_drums and channel == 9) or (mute_others and channel != 9)` holds;
`program_change` is always forwarded; `set_tempo` and everything else is
dropped. -/
def callsFor (fl : MuteFlags) (stopped : Bool) (msg : SecMsg) : List SinkCall :=
  if msg.type = MsgType.note_on ∧ stopped = false then
    if (fl.mute_drums = true ∧ msg.channel = 9) ∨
        (fl.mute_others = true ∧ msg.channel ≠ 9) then []
    else [SinkCall.noteon msg.channel msg.note msg.velocity]
  else if msg.type = MsgType.note_off ∧ stopped = false then
    if (fl.mute_drums = true ∧ msg.channel = 9) ∨
        (fl.mute_others = true ∧ msg.channel ≠ 9) then []
    else [SinkCall.noteoff msg.channel msg.note]
  else if msg.type = MsgType.program_change then
    [SinkCall.program_change msg.channel msg.program]
  else []

/-- The `for msg in midi` loop of `_play_thread_func`, iteration counter
included.  Shared state read by the worker is given per iteration: `flags i`
is the value of the mute flags during iteration `i`, `stopTop i` the value
`self._stop_flag` reads as at the loop-top check of iteration `i`, and
`stopDisp i` its value at the dispatch check after the wait.  Each produced
pair is the wall-clock wait before the event and the sink calls made for
it. -/
def playIter (flags : ℕ → MuteFlags) (stopTop stopDisp : ℕ → Bool) (factor : ℚ) :
    ℕ → List SecMsg → List (ℚ × List SinkCall)
  | _, [] => []
  | i, msg :: rest =>
    if stopTop i = true then []
    else
      (pyWait (msg.time * factor), callsFor (flags i) (stopDisp i) msg) ::
        playIter flags stopTop stopDisp factor (i + 1) rest

/-- The playback schedule of one session: `_play_thread_func` over the
iterated file. -/
def playThread (m : MidiFile) (factor : ℚ) (flags : ℕ → MuteFlags)
    (stopTop stopDisp : ℕ → Bool) : List (ℚ × List SinkCall) :=
  playIter flags stopTop stopDisp factor 0 (midiIter m)

/-- Default schedule entry, used only as the out-of-range value of
`List.getD`. -/
def dOut : ℚ × List SinkCall := (0, [])

/-- Sink calls made at iteration `i` of a playback schedule. -/
def sinkCallsAt (m : MidiFile) (factor : ℚ) (flags : ℕ → MuteFlags)
    (stopTop stopDisp : ℕ → Bool) (i : ℕ) : List SinkCall :=
  ((playThread m factor flags stopTop stopDisp).getD i dOut).2

/-- The tempo in force after a prefix of the merged track: the value of the
last `set_tempo` message in it, or the MIDI default 500000. -/
def runningTempo (t0 : ℕ) (l : List TrackMsg) : ℕ :=
  l.foldl (fun t msg => if msg.type = MsgType.set_tempo then msg.tempo else t) t0

/-- Default `TrackMsg`, used only as the out-of-range value of
`List.getD`. -/
def dTrack : TrackMsg := TrackMsg.mk MsgType.other 0 0 0 0 0 0

/-- The original file's inter-event duration of event `i`, as the spec
states it: the event's delta ticks converted to seconds with the tempo value
in force at that point of the file (the last `set_tempo` before it, MIDI
default 500000 before any). -/
def specWaitAt (m : MidiFile) (i : ℕ) : ℚ :=
  tick2second ((m.track.getD i dTrack).time : ℚ) m.ticks_per_beat
    (runningTempo 500000 (m.track.take i))

/-- Observable state of a `MidiPlayer` instance together with its active
session: `playing` is `self._play_thread and self._play_thread.is_alive()`,
`stop_flag` is `self._stop_flag`, and `session_factor`/`session_position`
are the running session's constant tempo factor and its current index in the
event sequence. -/
structure PlayerState where
  mute_drums : Bool
  mute_others : Bool
  playing : Bool
  stop_flag : Bool
  session_factor : ℚ
  session_position : ℕ
  deriving DecidableEq

/-- `MidiPlayer.play(midi_file_path, tempo_factor)`: returns the state after
the call and the schedule of events the spawned session will dispatch.  A
call while a session is alive is the warning no-op; a file `mido.MidiFile`
cannot load (`none`) aborts; otherwise a non-positive tempo factor is
replaced by 1.0, the stop flag is cleared and a session is spawned at
position 0. -/
def MidiPlayer_play (st : PlayerState) (file : Option MidiFile) (tempo_factor : ℚ)
    (flags : ℕ → MuteFlags) (stopTop stopDisp : ℕ → Bool) :
    PlayerState × List (ℚ × List SinkCall) :=
  if st.playing = true then (st, [])
  else
    match file with
    | none => (st, [])
    | some m =>
      let tf := if tempo_factor ≤ 0 then 1 else tempo_factor
      (PlayerState.mk st.mute_drums st.mute_others true false tf 0,
        playThread m tf flags stopTop stopDisp)

/-- Concrete file realising the worked scenario of the spec: PPQN 480, a
`set_tempo 500000` at tick 0, a `set_tempo 250000` at tick 1920, and an
`end_of_track` 1920 ticks later, so the tempo breakpoints are
(tick 0, 500000) and (tick 1920, 250000) and the track's total length is
3840 ticks. -/
def exFile1 : MidiFile :=
  MidiFile.mk 480
    [TrackMsg.mk MsgType.set_tempo 0 0 0 0 0 500000,
     TrackMsg.mk MsgType.set_tempo 1920 0 0 0 0 250000,
     TrackMsg.mk MsgType.other_meta 1920 0 0 0 0 0]

/-- Degenerate file: its only event is a `set_tempo 250000` at tick 0, so
every `set_tempo` encodes the same tempo and the track's total length is
zero. -/
def degFile : MidiFile :=
  MidiFile.mk 480 [TrackMsg.mk MsgType.set_tempo 0 0 0 0 0 250000]

/-- File whose only tempo is 400000 (150 BPM) with 960 ticks of track after
it. -/
def posFile : MidiFile :=
  MidiFile.mk 480
    [TrackMsg.mk MsgType.set_tempo 0 0 0 0 0 400000,
     TrackMsg.mk MsgType.other_meta 960 0 0 0 0 0]

/-- File whose only event is an immediate `program_change` to program 5 on
channel 0. -/
def pcFile : MidiFile :=
  MidiFile.mk 480 [TrackMsg.mk MsgType.program_change 0 0 0 0 5 0]

/-- Mute-flag history that never mutes anything. -/
def noMute : ℕ → MuteFlags :=
  fun _ => MuteFlags.mk false false

/-- Stop-flag history that never reads as set. -/
def neverStop : ℕ → Bool :=
  fun _ => false

/-- Loop-top stop readings of a run whose stop flag is set during the wait
of iteration 0: false at the loop top of iteration 0, true from iteration 1
on. -/
def stopTopEx : ℕ → Bool :=
  fun j => decide (1 ≤ j)

/-- Dispatch-check stop readings of the same run: the flag is set by the
time every dispatch check happens. -/
def stopDispEx : ℕ → Bool :=
  fun _ => true

/-- File whose only event is an immediate `note_on` on the drum channel. -/
def noteFile : MidiFile :=
  MidiFile.mk 480 [TrackMsg.mk MsgType.note_on 0 9 36 100 0 0]

/-- Mute-flag history with the drums muted throughout. -/
def drumsMuted : ℕ → MuteFlags :=
  fun _ => MuteFlags.mk true false

/-- `detect_original_bpm` is strictly positive: every branch returns either
the 120.0 fallback or `60_000_000 / tempo` for a nonzero tempo. -/
theorem detect_original_bpm_pos (f : Option MidiFile) : 0 < detect_original_bpm f := by
  cases f with
  | none => norm_num [detect_original_bpm]
  | some m =>
    suffices h : ∀ l : List TrackMsg, 0 < detectGo m.ticks_per_beat l from h m.track
    intro l
    induction l with
    | nil => norm_num [detectGo]
    | cons msg rest ih =>
      by_cases h1 : m.ticks_per_beat = 0 ∧ 0 < msg.time
      · norm_num [detectGo, h1]
      · by_cases h2 : msg.type = MsgType.set_tempo
        · by_cases h3 : msg.tempo = 0
          · norm_num [detectGo, h1, h2, h3]
          · have hpos : (0 : ℚ) < (msg.tempo : ℚ) := by
              exact_mod_cast Nat.pos_of_ne_zero h3
            simp only [detectGo, if_neg h1, if_pos h2, if_neg h3, tempo2bpm]
            exact div_pos (by norm_num) hpos
        · simpa [detectGo, h1, h2] using ih

/-- Evaluation of the estimator on the worked-scenario file. -/
theorem estimate_exFile1 : estimate_midi_bpm (some exFile1) = 144 := by
  simp [estimate_midi_bpm, tempoBreakpoints, collectBreakpoints, midiIter, midiIterGo,
    trackTotalSeconds, segSeconds, segWeighted, tick2second, tempo2bpm, exFile1,
    MsgType.is_meta]
  norm_num

/-- Evaluation of `detect_original_bpm` on the worked-scenario file: the
first `set_tempo` value 500000 gives 120 BPM. -/
theorem detect_exFile1 : detect_original_bpm (some exFile1) = 120 := by
  simp [detect_original_bpm, detectGo, exFile1, tempo2bpm]
  norm_num

/-- C1: the spec's worked scenario claims `estimate_midi_bpm` returns
exactly 160.0 on a PPQN-480 file with tempo breakpoints (tick 0, 500000)
and (tick 1920, 250000) and total length 3840 ticks.  On `exFile1`, which
realises exactly that scenario, the code returns 144.0: iterating a
`mido.MidiFile` yields delta times already converted to seconds, which the
function then accumulates (for meta messages only) and feeds to
`mido.tick2second` as if they were ticks, so each segment is weighted by
`seconds * tempo` instead of by seconds. -/
theorem claim_C1_code_eval :
    estimate_midi_bpm (some exFile1) = 144 ∧ (144 : ℚ) ≠ 160 :=
  ⟨estimate_exFile1, by norm_num⟩

/-- C2 counterexample: on the worked-scenario file the estimated BPM is 144,
but feeding "144" to `calculate_tempo_factor` in BPM mode returns
`120 / 144 = 5/6`, not 1.0, because the factor divides
`detect_original_bpm` (the first `set_tempo`'s BPM, here 120) by the desired
BPM, not the time-weighted estimate. -/
theorem claim_C2_counterexample :
    estimate_midi_bpm (some exFile1) = 144 ∧
      calculate_tempo_factor (some exFile1) (some ("144")) TempoMode.BPM =
        PyFloat.finite (5 / 6) ∧
      PyFloat.finite ((5 : ℚ) / 6) ≠ PyFloat.finite 1 := by
  refine ⟨estimate_exFile1, ?_, by norm_num⟩
  have hp : floatOfChars (stripChars ("144").toList) = some (PyFloat.finite 144) := by
    decide
  have hne : ("144" : String) = "" ↔ False := by simp
  simp only [calculate_tempo_factor, hp, hne, if_false]
  norm_num [pyLeZero, pyDivNum, detect_exFile1]

/-- C2 (amended): in BPM mode the factor is 1.0 when the input parses to the
value of `detect_original_bpm` for the file (the first SetTempo's BPM, with
the 120.0 fallback), and 1.0 for non-positive, non-numeric or missing
input. -/
theorem claim_C2_amended :
    (∀ (f : Option MidiFile) (s : String), s ≠ "" →
        floatOfChars (stripChars s.toList) =
          some (PyFloat.finite (detect_original_bpm f)) →
        calculate_tempo_factor f (some s) TempoMode.BPM = PyFloat.finite 1) ∧
      (∀ (f : Option MidiFile) (s : String) (q : ℚ), s ≠ "" →
        floatOfChars (stripChars s.toList) = some (PyFloat.finite q) → q ≤ 0 →
        calculate_tempo_factor f (some s) TempoMode.BPM = PyFloat.finite 1) ∧
      (∀ (f : Option MidiFile) (s : String), s ≠ "" →
        floatOfChars (stripChars s.toList) = none →
        calculate_tempo_factor f (some s) TempoMode.BPM = PyFloat.finite 1) ∧
      (∀ f : Option MidiFile,
        calculate_tempo_factor f none TempoMode.BPM = PyFloat.finite 1) := by
  refine ⟨?_, ?_, ?_, ?_⟩
  · intro f s hs hp
    have hpos := detect_original_bpm_pos f
    have hle : ¬ detect_original_bpm f ≤ 0 := not_le.mpr hpos
    simp only [calculate_tempo_factor, hs, hp, if_false, if_neg hs]
    simp [pyLeZero, pyDivNum, hle, div_self (ne_of_gt hpos)]
  · intro f s q hs hp hq
    simp only [calculate_tempo_factor, hp, if_neg hs]
    simp [pyLeZero, hq]
  · intro f s hs hp
    simp only [calculate_tempo_factor, hp, if_neg hs]
  · intro f
    simp [calculate_tempo_factor]

/-- Witness for C2: the unreadable file falls back to 120 BPM and the input
"120" then gives factor 1.0. -/
theorem claim_C2_witness :
    calculate_tempo_factor none (some ("120")) TempoMode.BPM = PyFloat.finite 1 :=
  claim_C2_amended.1 none ("120") (by decide) (by decide)

/-- C3 counterexample: the input "inf" parses as a positive float in
Percentage mode, and Python `100.0 / inf` is `0.0`, so the returned factor
is zero, not strictly positive. -/
theorem claim_C3_counterexample :
    calculate_tempo_factor none (some ("inf")) TempoMode.PERCENTAGE =
        PyFloat.finite 0 ∧
      ¬ pyIsPos (PyFloat.finite 0) := by
  constructor
  · have hp : floatOfChars (stripChars ("inf").toList) = some PyFloat.posInf := by
      decide
    have hne : ("inf" : String) = "" ↔ False := by simp
    simp only [calculate_tempo_factor, hp, hne, if_false]
    norm_num [pyGtZero, pyDivNum]
  · simp [pyIsPos]

/-- C3 (amended): for every file, both modes, and every input that is
missing, empty, non-numeric, or parses to anything other than `+inf` or
`nan`, the factor is a strictly positive finite number.  (An input parsing
to `+inf` yields 0.0, and `nan` in BPM mode yields `nan`.) -/
theorem claim_C3_amended (f : Option MidiFile) (inp : Option String) (mode : TempoMode)
    (h : ∀ s, inp = some s →
      floatOfChars (stripChars s.toList) ≠ some PyFloat.posInf ∧
        floatOfChars (stripChars s.toList) ≠ some PyFloat.nan) :
    pyIsPos (calculate_tempo_factor f inp mode) := by
  match inp with
  | none => norm_num [calculate_tempo_factor, pyIsPos]
  | some s =>
    by_cases hs : s = ""
    · subst hs
      norm_num [calculate_tempo_factor, pyIsPos]
    · cases hv : floatOfChars (stripChars s.toList) with
      | none =>
        simp only [calculate_tempo_factor, if_neg hs, hv]
        norm_num [pyIsPos]
      | some v =>
        cases v with
        | finite q =>
          cases mode with
          | PERCENTAGE =>
            by_cases hq : 0 < q
            · have hgt : pyGtZero (PyFloat.finite q) = true := by simp [pyGtZero, hq]
              simp only [calculate_tempo_factor, if_neg hs, hv, hgt, if_true,
                pyDivNum, pyIsPos]
              positivity
            · have hgt : pyGtZero (PyFloat.finite q) = false := by simp [pyGtZero, hq]
              simp only [calculate_tempo_factor, if_neg hs, hv, hgt]
              norm_num [pyIsPos]
          | BPM =>
            by_cases hq : q ≤ 0
            · have hle : pyLeZero (PyFloat.finite q) = true := by simp [pyLeZero, hq]
              simp only [calculate_tempo_factor, if_neg hs, hv, hle, if_true]
              norm_num [pyIsPos]
            · have hq2 : 0 < q := not_le.mp hq
              have hle : pyLeZero (PyFloat.finite q) = false := by simp [pyLeZero, hq]
              simp only [calculate_tempo_factor, if_neg hs, hv, hle,
                pyDivNum, pyIsPos]
              norm_num
              exact div_pos (detect_original_bpm_pos f) hq2
        | posInf => exact absurd hv (h s rfl).1
        | negInf =>
          cases mode with
          | PERCENTAGE =>
            have hgt : pyGtZero PyFloat.negInf = false := rfl
            simp only [calculate_tempo_factor, if_neg hs, hv, hgt]
            norm_num [pyIsPos]
          | BPM =>
            have hle : pyLeZero PyFloat.negInf = true := rfl
            simp only [calculate_tempo_factor, if_neg hs, hv, hle, if_true]
            norm_num [pyIsPos]
        | nan => exact absurd hv (h s rfl).2

/-- Witness for C3: input "50" in Percentage mode yields a strictly positive
factor. -/
theorem claim_C3_witness :
    pyIsPos (calculate_tempo_factor none (some ("50")) TempoMode.PERCENTAGE) :=
  claim_C3_amended none (some ("50")) TempoMode.PERCENTAGE
    (fun s hs => by cases hs; exact ⟨by decide, by decide⟩)

/-- When every non-sentinel breakpoint carries the same tempo, the weighted
sum is that tempo's BPM times the total seconds. -/
theorem segWeighted_const (tpb t : ℕ) :
    ∀ l : List (ℚ × ℕ), (∀ x ∈ l.dropLast, x.2 = t) →
      segWeighted tpb l = tempo2bpm t * segSeconds tpb l
  | [], _ => by simp [segWeighted, segSeconds]
  | [p], _ => by simp [segWeighted, segSeconds]
  | p :: q :: rest, h => by
    have hd : (p :: q :: rest).dropLast = p :: (q :: rest).dropLast := by
      simp [List.dropLast]
    have hp : p.2 = t := h p (by rw [hd]; exact List.mem_cons_self _ _)
    have ih := segWeighted_const tpb t (q :: rest)
      (fun x hx => h x (by rw [hd]; exact List.mem_cons_of_mem _ hx))
    simp only [segWeighted, segSeconds]
    rw [hp, ih]
    ring

/-- Breakpoints of the degenerate file: one entry, at absolute position
zero. -/
theorem tempoBreakpoints_degFile : tempoBreakpoints degFile = [(0, 250000)] := by
  simp [tempoBreakpoints, collectBreakpoints, midiIter, midiIterGo, degFile,
    tick2second, MsgType.is_meta]

/-- Evaluation of the estimator on the degenerate file: the single segment
has zero length, so the function returns the 120.0 fallback. -/
theorem estimate_degFile : estimate_midi_bpm (some degFile) = 120 := by
  simp [estimate_midi_bpm, tempoBreakpoints, collectBreakpoints, midiIter, midiIterGo,
    trackTotalSeconds, segSeconds, segWeighted, tick2second, tempo2bpm, degFile,
    MsgType.is_meta]
  norm_num

/-- C4 counterexample: in `degFile` every `set_tempo` encodes 250000
(240 BPM), yet `estimate_midi_bpm` returns 120, because the total duration
spanned by the breakpoints is zero and the function then falls back to the
default instead of returning `60_000_000 / 250000`. -/
theorem claim_C4_counterexample :
    (∀ p ∈ tempoBreakpoints degFile, p.2 = 250000) ∧
      tempoBreakpoints degFile ≠ [] ∧
      estimate_midi_bpm (some degFile) = 120 ∧
      (120 : ℚ) ≠ 60000000 / (250000 : ℚ) := by
  refine ⟨?_, ?_, estimate_degFile, by norm_num⟩
  · intro p hp
    rw [tempoBreakpoints_degFile] at hp
    simp at hp
    rw [hp]
  · rw [tempoBreakpoints_degFile]
    simp

/-- C4 (amended): if every recorded tempo breakpoint carries the same
nonzero tempo `t`, at least one breakpoint exists, the file's resolution is
nonzero and the accumulated segment time is nonzero, then
`estimate_midi_bpm` returns exactly `60_000_000 / t` — independent of how
many breakpoints there are or where they fall. -/
theorem claim_C4_amended (m : MidiFile) (t : ℕ) (htpb : m.ticks_per_beat ≠ 0)
    (ht : t ≠ 0) (hne : tempoBreakpoints m ≠ [])
    (hall : ∀ p ∈ tempoBreakpoints m, p.2 = t)
    (hdur : segSeconds m.ticks_per_beat
        (tempoBreakpoints m ++ [(trackTotalSeconds m, 0)]) ≠ 0) :
    estimate_midi_bpm (some m) = 60000000 / (t : ℚ) := by
  have hempty : (tempoBreakpoints m).isEmpty = false := by
    cases htc : tempoBreakpoints m with
    | nil => exact absurd htc hne
    | cons a l => rfl
  have hany : ((tempoBreakpoints m).any fun p => decide (p.2 = 0)) = false := by
    simp only [List.any_eq_false, decide_eq_true_eq]
    intro x hx
    rw [hall x hx]
    exact ht
  have key : estimate_midi_bpm (some m) =
      segWeighted m.ticks_per_beat (tempoBreakpoints m ++ [(trackTotalSeconds m, 0)]) /
        segSeconds m.ticks_per_beat (tempoBreakpoints m ++ [(trackTotalSeconds m, 0)]) := by
    simp only [estimate_midi_bpm, if_neg htpb, hempty, hany, Bool.false_eq_true,
      if_false, if_neg hdur]
  have hdl : ∀ x ∈ (tempoBreakpoints m ++ [(trackTotalSeconds m, 0)]).dropLast,
      x.2 = t := by
    rw [List.dropLast_concat]
    exact hall
  rw [key, segWeighted_const m.ticks_per_beat t _ hdl, mul_div_assoc,
    div_self hdur, mul_one, tempo2bpm]

/-- Breakpoints of `posFile`: one entry, tempo 400000, at absolute position
zero. -/
theorem tempoBreakpoints_posFile : tempoBreakpoints posFile = [(0, 400000)] := by
  simp [tempoBreakpoints, collectBreakpoints, midiIter, midiIterGo, posFile,
    tick2second, MsgType.is_meta]

/-- Witness for C4: `posFile` has one tempo, 400000, over a positive
duration, and the estimator returns exactly its BPM, 150. -/
theorem claim_C4_witness :
    estimate_midi_bpm (some posFile) = 60000000 / (400000 : ℚ) :=
  claim_C4_amended posFile 400000 (by norm_num [posFile]) (by norm_num)
    (by rw [tempoBreakpoints_posFile]; simp)
    (by rw [tempoBreakpoints_posFile]; simp)
    (by
      rw [tempoBreakpoints_posFile]
      norm_num [segSeconds, trackTotalSeconds, midiIter, midiIterGo, posFile,
        tick2second, MsgType.is_meta])

/-- C5: Percentage mode maps "100" to 1.0, "50" to 2.0, "200" to 0.5, and
"0", "-5", "abc", "" to 1.0; in general a parsed percent `p > 0` gives
`100.0 / p` and `p <= 0` gives 1.0, for every file. -/
theorem claim_C5 :
    (∀ f, calculate_tempo_factor f (some ("100")) TempoMode.PERCENTAGE =
      PyFloat.finite 1) ∧
    (∀ f, calculate_tempo_factor f (some ("50")) TempoMode.PERCENTAGE =
      PyFloat.finite 2) ∧
    (∀ f, calculate_tempo_factor f (some ("200")) TempoMode.PERCENTAGE =
      PyFloat.finite (1 / 2)) ∧
    (∀ f, calculate_tempo_factor f (some ("0")) TempoMode.PERCENTAGE =
      PyFloat.finite 1) ∧
    (∀ f, calculate_tempo_factor f (some ("-5")) TempoMode.PERCENTAGE =
      PyFloat.finite 1) ∧
    (∀ f, calculate_tempo_factor f (some ("abc")) TempoMode.PERCENTAGE =
      PyFloat.finite 1) ∧
    (∀ f, calculate_tempo_factor f (some ("")) TempoMode.PERCENTAGE =
      PyFloat.finite 1) ∧
    (∀ (f : Option MidiFile) (s : String) (q : ℚ),
      floatOfChars (stripChars s.toList) = some (PyFloat.finite q) → s ≠ "" →
      (0 < q → calculate_tempo_factor f (some s) TempoMode.PERCENTAGE =
        PyFloat.finite (100 / q)) ∧
      (q ≤ 0 → calculate_tempo_factor f (some s) TempoMode.PERCENTAGE =
        PyFloat.finite 1)) := by
  have h100 : floatOfChars (stripChars ("100").toList) = some (PyFloat.finite 100) := by
    decide
  have h50 : floatOfChars (stripChars ("50").toList) = some (PyFloat.finite 50) := by
    decide
  have h200 : floatOfChars (stripChars ("200").toList) = some (PyFloat.finite 200) := by
    decide
  have h0 : floatOfChars (stripChars ("0").toList) = some (PyFloat.finite 0) := by
    decide
  have hm5 : floatOfChars (stripChars ("-5").toList) = some (PyFloat.finite (-5)) := by
    decide
  have habc : floatOfChars (stripChars ("abc").toList) = none := by decide
  refine ⟨?_, ?_, ?_, ?_, ?_, ?_, ?_, ?_⟩
  · intro f
    have hne : ("100" : String) = "" ↔ False := by simp
    simp only [calculate_tempo_factor, h100, hne, if_false]
    norm_num [pyGtZero, pyDivNum]
  · intro f
    have hne : ("50" : String) = "" ↔ False := by simp
    simp only [calculate_tempo_factor, h50, hne, if_false]
    norm_num [pyGtZero, pyDivNum]
  · intro f
    have hne : ("200" : String) = "" ↔ False := by simp
    simp only [calculate_tempo_factor, h200, hne, if_false]
    norm_num [pyGtZero, pyDivNum]
  · intro f
    have hne : ("0" : String) = "" ↔ False := by simp
    simp only [calculate_tempo_factor, h0, hne, if_false]
    norm_num [pyGtZero]
  · intro f
    have hne : ("-5" : String) = "" ↔ False := by simp
    simp only [calculate_tempo_factor, hm5, hne, if_false]
    norm_num [pyGtZero]
  · intro f
    have hne : ("abc" : String) = "" ↔ False := by simp
    simp only [calculate_tempo_factor, habc, hne, if_false]
  · intro f
    simp [calculate_tempo_factor]
  · intro f s q hp hs
    constructor
    · intro hq
      simp only [calculate_tempo_factor, hp, if_neg hs]
      simp [pyGtZero, hq, pyDivNum]
    · intro hq
      have hnq : ¬ 0 < q := not_lt.mpr hq
      simp only [calculate_tempo_factor, hp, if_neg hs]
      simp [pyGtZero, hnq]

/-- Witness for C5: the general Percentage rule applied to input "50". -/
theorem claim_C5_witness :
    calculate_tempo_factor none (some ("50")) TempoMode.PERCENTAGE =
      PyFloat.finite (100 / 50) :=
  (claim_C5.2.2.2.2.2.2.2 none ("50") 50 (by decide) (by decide)).1 (by norm_num)

/-- C7: a `play` call while a session is already alive is a warning no-op:
the state (including the running session's factor, position and stop flag)
is returned unchanged and no events are scheduled. -/
theorem claim_C7 (st : PlayerState) (file : Option MidiFile) (tf : ℚ)
    (flags : ℕ → MuteFlags) (stopTop stopDisp : ℕ → Bool)
    (h : st.playing = true) :
    MidiPlayer_play st file tf flags stopTop stopDisp = (st, []) := by
  simp [MidiPlayer_play, h]

/-- Witness for C7: a concrete busy player ignores a second `play`. -/
theorem claim_C7_witness :
    MidiPlayer_play (PlayerState.mk false false true false 2 5) (some exFile1) 3
        noMute neverStop neverStop =
      (PlayerState.mk false false true false 2 5, []) :=
  claim_C7 (PlayerState.mk false false true false 2 5) (some exFile1) 3
    noMute neverStop neverStop rfl

/-- C9: `play` with a non-positive tempo factor still starts a session and
behaves exactly as a session with factor 1.0. -/
theorem claim_C9 (st : PlayerState) (m : MidiFile) (tf : ℚ)
    (flags : ℕ → MuteFlags) (stopTop stopDisp : ℕ → Bool)
    (hidle : st.playing = false) (hf : tf ≤ 0) :
    MidiPlayer_play st (some m) tf flags stopTop stopDisp =
      (PlayerState.mk st.mute_drums st.mute_others true false 1 0,
        playThread m 1 flags stopTop stopDisp) := by
  simp [MidiPlayer_play, hidle, hf]

/-- Witness for C9: factor -2 on an idle player starts a factor-1.0
session. -/
theorem claim_C9_witness :
    MidiPlayer_play (PlayerState.mk false false false false 1 0) (some pcFile) (-2)
        noMute neverStop neverStop =
      (PlayerState.mk false false true false 1 0,
        playThread pcFile 1 noMute neverStop neverStop) :=
  claim_C9 (PlayerState.mk false false false false 1 0) pcFile (-2)
    noMute neverStop neverStop rfl (by norm_num)

/-- Entry `k` of the never-cancelled playback loop started at iteration `j`:
the wait and dispatch computed from message `k` with the flags of iteration
`j + k` and the stop checks eliminated. -/
theorem playIter_get_noStop (flags : ℕ → MuteFlags) (factor : ℚ) :
    ∀ (l : List SecMsg) (j k : ℕ),
      (playIter flags neverStop neverStop factor j l).get? k =
        (l.get? k).map
          (fun msg => (pyWait (msg.time * factor), callsFor (flags (j + k)) false msg))
  | [], j, k => by simp [playIter]
  | msg :: rest, j, 0 => by simp [playIter, neverStop]
  | msg :: rest, j, k + 1 => by
    have ih := playIter_get_noStop flags factor rest (j + 1) k
    simp only [playIter, neverStop, Bool.false_eq_true, if_false, List.get?_cons_succ,
      ih, Nat.add_assoc, Nat.add_comm 1 k]

/-- Entry `k` of mido's iteration: the `k`-th track message with its delta
converted using the tempo of the last `set_tempo` among the first `k`
messages. -/
theorem midiIterGo_get (tpb : ℕ) :
    ∀ (l : List TrackMsg) (t0 k : ℕ),
      (midiIterGo tpb t0 l).get? k =
        (l.get? k).map
          (fun msg => SecMsg.mk msg.type
            (tick2second (msg.time : ℚ) tpb (runningTempo t0 (l.take k)))
            msg.channel msg.note msg.velocity msg.program msg.tempo)
  | [], t0, k => by simp [midiIterGo]
  | msg :: rest, t0, 0 => by simp [midiIterGo, runningTempo]
  | msg :: rest, t0, k + 1 => by
    have ih := midiIterGo_get tpb rest
      (if msg.type = MsgType.set_tempo then msg.tempo else t0) k
    simp only [midiIterGo, List.get?_cons_succ, ih, List.take_succ_cons, runningTempo,
      List.foldl_cons]

/-- mido's iteration preserves the number of messages. -/
theorem midiIterGo_length (tpb : ℕ) :
    ∀ (l : List TrackMsg) (t0 : ℕ), (midiIterGo tpb t0 l).length = l.length
  | [], _ => rfl
  | msg :: rest, t0 => by
    simp [midiIterGo, midiIterGo_length tpb rest]

/-- The iterated file has one message per track message. -/
theorem midiIter_length (m : MidiFile) : (midiIter m).length = m.track.length :=
  midiIterGo_length m.ticks_per_beat m.track 500000

/-- A never-cancelled playback loop schedules every message. -/
theorem playIter_length_noStop (flags : ℕ → MuteFlags) (factor : ℚ) :
    ∀ (l : List SecMsg) (j : ℕ),
      (playIter flags neverStop neverStop factor j l).length = l.length
  | [], _ => rfl
  | msg :: rest, j => by
    simp [playIter, neverStop, playIter_length_noStop flags factor rest]

/-- Tick-to-second conversion of a nonnegative tick count is nonnegative. -/
theorem tick2second_nonneg (tick : ℚ) (h : 0 ≤ tick) (tpb tempo : ℕ) :
    0 ≤ tick2second tick tpb tempo := by
  unfold tick2second
  positivity

/-- The sleep guard is the identity on nonnegative waits. -/
theorem pyWait_of_nonneg (w : ℚ) (h : 0 ≤ w) : pyWait w = w := by
  by_cases h1 : 0 < w
  · simp [pyWait, h1]
  · have h0 : w = 0 := le_antisymm (not_lt.mp h1) h
    simp [pyWait, h0]

/-- In-range entry of the iterated file, in `getD` form: the corresponding
track message with its delta converted at the tempo in force. -/
theorem midiIter_getD (m : MidiFile) (n : ℕ) (hn : n < m.track.length) :
    (midiIter m).getD n dSec =
      SecMsg.mk (m.track.getD n dTrack).type (specWaitAt m n)
        (m.track.getD n dTrack).channel (m.track.getD n dTrack).note
        (m.track.getD n dTrack).velocity (m.track.getD n dTrack).program
        (m.track.getD n dTrack).tempo := by
  have h1 := midiIterGo_get m.ticks_per_beat m.track 500000 n
  have h2 : m.track.get? n = some (m.track.getD n dTrack) := by
    rw [List.getD_eq_getD_get?]
    cases htk : m.track.get? n with
    | none =>
      rw [List.get?_eq_none] at htk
      omega
    | some msg => rfl
  rw [List.getD_eq_getD_get?, midiIter, h1, h2]
  rfl

/-- In-range entry of a never-cancelled playback schedule. -/
theorem playThread_get_noStop (m : MidiFile) (factor : ℚ) (flags : ℕ → MuteFlags)
    (n : ℕ) (hn : n < m.track.length) :
    (playThread m factor flags neverStop neverStop).get? n =
      some (pyWait (((midiIter m).getD n dSec).time * factor),
        callsFor (flags n) false ((midiIter m).getD n dSec)) := by
  have h1 := playIter_get_noStop flags factor (midiIter m) 0 n
  have hlen : n < (midiIter m).length := by rw [midiIter_length]; exact hn
  have h2 : (midiIter m).get? n = some ((midiIter m).getD n dSec) := by
    rw [List.getD_eq_getD_get?]
    cases htk : (midiIter m).get? n with
    | none =>
      rw [List.get?_eq_none] at htk
      omega
    | some msg => rfl
  rw [playThread, h1, h2]
  simp

/-- The spec-side original inter-event duration is nonnegative. -/
theorem specWaitAt_nonneg (m : MidiFile) (n : ℕ) : 0 ≤ specWaitAt m n := by
  unfold specWaitAt
  apply tick2second_nonneg
  positivity

/-- C8: in a never-cancelled session with a nonnegative factor, the schedule
pairs off index `i` with index `i` of the file — events keep file order —
the wall-clock wait before event `i` is the original inter-event duration of
event `i` (converted with the tempo in force at that point, `specWaitAt`)
times the session's constant factor, and the dispatch of event `i` uses the
same constant factor-independent policy throughout (no re-derivation at
tempo changes). -/
theorem claim_C8 (m : MidiFile) (factor : ℚ) (flags : ℕ → MuteFlags) (hf : 0 ≤ factor) :
    (playThread m factor flags neverStop neverStop).map Prod.fst =
      (List.range m.track.length).map (fun i => specWaitAt m i * factor) ∧
    (playThread m factor flags neverStop neverStop).map Prod.snd =
      (List.range m.track.length).map
        (fun i => callsFor (flags i) false ((midiIter m).getD i dSec)) := by
  have hlen : (playThread m factor flags neverStop neverStop).length
      = m.track.length := by
    rw [playThread, playIter_length_noStop, midiIter_length]
  constructor
  · apply List.ext_get?_iff.mpr
    intro n
    by_cases hn : n < m.track.length
    · rw [List.get?_map, playThread_get_noStop m factor flags n hn,
        List.get?_map, List.get?_range hn]
      simp only [Option.map_some']
      rw [midiIter_getD m n hn]
      simp only []
      rw [pyWait_of_nonneg _ (mul_nonneg (specWaitAt_nonneg m n) hf)]
    · have hge : m.track.length ≤ n := not_lt.mp hn
      have h1 : ((playThread m factor flags neverStop neverStop).map Prod.fst).get? n
          = none := by
        rw [List.get?_eq_none]
        simpa [hlen] using hge
      have h2 : (((List.range m.track.length)).map
          (fun i => specWaitAt m i * factor)).get? n = none := by
        rw [List.get?_eq_none]
        simpa using hge
      rw [h1, h2]
  · apply List.ext_get?_iff.mpr
    intro n
    by_cases hn : n < m.track.length
    · rw [List.get?_map, playThread_get_noStop m factor flags n hn,
        List.get?_map, List.get?_range hn]
      simp only [Option.map_some']
    · have hge : m.track.length ≤ n := not_lt.mp hn
      have h1 : ((playThread m factor flags neverStop neverStop).map Prod.snd).get? n
          = none := by
        rw [List.get?_eq_none]
        simpa [hlen] using hge
      have h2 : (((List.range m.track.length)).map
          (fun i => callsFor (flags i) false ((midiIter m).getD i dSec))).get? n
          = none := by
        rw [List.get?_eq_none]
        simpa using hge
      rw [h1, h2]

/-- Witness for C8: the worked-scenario file at factor 2. -/
theorem claim_C8_witness :
    (playThread exFile1 2 noMute neverStop neverStop).map Prod.fst =
      (List.range exFile1.track.length).map (fun i => specWaitAt exFile1 i * 2) :=
  (claim_C8 exFile1 2 noMute (by norm_num)).1

/-- C6: in a never-cancelled session, for the event at each index `i`: a
`note_on` or `note_off` is forwarded to the sink if and only if
`(mute_drums and channel == 9) or (mute_others and channel != 9)` does not
hold of the flags read at iteration `i`; a `program_change` is always
forwarded; a `set_tempo` is never forwarded. -/
theorem claim_C6 (m : MidiFile) (factor : ℚ) (flags : ℕ → MuteFlags) (i : ℕ)
    (hi : i < m.track.length) :
    (((midiIter m).getD i dSec).type = MsgType.note_on →
      sinkCallsAt m factor flags neverStop neverStop i =
        (if ((flags i).mute_drums = true ∧ ((midiIter m).getD i dSec).channel = 9) ∨
            ((flags i).mute_others = true ∧ ((midiIter m).getD i dSec).channel ≠ 9)
          then []
          else [SinkCall.noteon ((midiIter m).getD i dSec).channel
            ((midiIter m).getD i dSec).note ((midiIter m).getD i dSec).velocity])) ∧
    (((midiIter m).getD i dSec).type = MsgType.note_off →
      sinkCallsAt m factor flags neverStop neverStop i =
        (if ((flags i).mute_drums = true ∧ ((midiIter m).getD i dSec).channel = 9) ∨
            ((flags i).mute_others = true ∧ ((midiIter m).getD i dSec).channel ≠ 9)
          then []
          else [SinkCall.noteoff ((midiIter m).getD i dSec).channel
            ((midiIter m).getD i dSec).note])) ∧
    (((midiIter m).getD i dSec).type = MsgType.program_change →
      sinkCallsAt m factor flags neverStop neverStop i =
        [SinkCall.program_change ((midiIter m).getD i dSec).channel
          ((midiIter m).getD i dSec).program]) ∧
    (((midiIter m).getD i dSec).type = MsgType.set_tempo →
      sinkCallsAt m factor flags neverStop neverStop i = []) := by
  have hs : sinkCallsAt m factor flags neverStop neverStop i =
      callsFor (flags i) false ((midiIter m).getD i dSec) := by
    rw [sinkCallsAt, List.getD_eq_getD_get?, playThread_get_noStop m factor flags i hi]
    rfl
  refine ⟨?_, ?_, ?_, ?_⟩
  · intro htype
    rw [hs]
    unfold callsFor
    rw [if_pos ⟨htype, rfl⟩]
  · intro htype
    rw [hs]
    unfold callsFor
    rw [if_neg (fun hc => by rw [htype] at hc; exact absurd hc.1 (by decide)),
      if_pos ⟨htype, rfl⟩]
  · intro htype
    rw [hs]
    unfold callsFor
    rw [if_neg (fun hc => by rw [htype] at hc; exact absurd hc.1 (by decide)),
      if_neg (fun hc => by rw [htype] at hc; exact absurd hc.1 (by decide)),
      if_pos htype]
  · intro htype
    rw [hs]
    unfold callsFor
    rw [if_neg (fun hc => by rw [htype] at hc; exact absurd hc.1 (by decide)),
      if_neg (fun hc => by rw [htype] at hc; exact absurd hc.1 (by decide)),
      if_neg (fun hc => by rw [htype] at hc; exact absurd hc (by decide))]

/-- Witness for C6: with the drums muted, the drum-channel `note_on` of
`noteFile` is suppressed. -/
theorem claim_C6_witness :
    sinkCallsAt noteFile 1 drumsMuted neverStop neverStop 0 = [] := by
  have h := (claim_C6 noteFile 1 drumsMuted 0 (by norm_num [noteFile])).1 rfl
  rw [h, if_pos (Or.inl ⟨rfl, rfl⟩)]

/-- Once one stop reading is true, every later reading is true: setting
`_stop_flag` is one-way during a session. -/
theorem stopChain (stopTop stopDisp : ℕ → Bool)
    (hTD : ∀ j, stopTop j = true → stopDisp j = true)
    (hDT : ∀ j, stopDisp j = true → stopTop (j + 1) = true)
    (i : ℕ) (hset : stopDisp i = true) :
    ∀ j, i < j → stopTop j = true ∧ stopDisp j = true := by
  intro j
  induction j with
  | zero => omega
  | succ n ih =>
    intro hij
    rcases Nat.lt_succ_iff_lt_or_eq.mp hij with h1 | rfl
    · have hn := ih h1
      exact ⟨hDT n hn.2, hTD (n + 1) (hDT n hn.2)⟩
    · exact ⟨hDT i hset, hTD (i + 1) (hDT i hset)⟩

/-- With the stop flag set at the dispatch check, only non-note calls can be
made for a message. -/
theorem callsFor_stopped (fl : MuteFlags) (msg : SecMsg) :
    ∀ c ∈ callsFor fl true msg, c.isNote = false := by
  intro c hc
  unfold callsFor at hc
  rw [if_neg (fun h => by cases h.2), if_neg (fun h => by cases h.2)] at hc
  by_cases hpc : msg.type = MsgType.program_change
  · rw [if_pos hpc] at hc
    simp at hc
    rw [hc]
    rfl
  · rw [if_neg hpc] at hc
    simp at hc

/-- From the iteration whose dispatch check sees the stop flag on, no note
call is ever made. -/
theorem playIterStop (flags : ℕ → MuteFlags) (stopTop stopDisp : ℕ → Bool)
    (factor : ℚ) (i : ℕ)
    (hTD : ∀ j, stopTop j = true → stopDisp j = true)
    (hDT : ∀ j, stopDisp j = true → stopTop (j + 1) = true)
    (hset : stopDisp i = true) :
    ∀ (l : List SecMsg) (start k : ℕ), i ≤ start + k →
      ∀ c ∈ ((playIter flags stopTop stopDisp factor start l).getD k dOut).2,
        c.isNote = false
  | [], start, k => by
    intro hik c hc
    simp [playIter, dOut] at hc
  | msg :: rest, start, k => by
    intro hik c hc
    by_cases hst : stopTop start = true
    · rw [playIter, if_pos hst] at hc
      simp [dOut] at hc
    · rw [playIter, if_neg hst] at hc
      cases k with
      | zero =>
        rcases Nat.lt_or_ge i start with h1 | h1
        · exact absurd (stopChain stopTop stopDisp hTD hDT i hset start h1).1 hst
        · have his : i = start := by omega
          subst his
          rw [List.getD_cons_zero] at hc
          exact callsFor_stopped (flags i) msg c (by rw [hset] at hc; exact hc)
      | succ k2 =>
        rw [List.getD_cons_succ] at hc
        exact playIterStop flags stopTop stopDisp factor i hTD hDT hset rest
          (start + 1) k2 (by omega) c hc

/-- C10: the stop readings of a session are monotone (the flag is only ever
set).  If the dispatch check of iteration `i` sees the flag on, no `noteon`
or `noteoff` call is made at any iteration from `i` on — each note dispatch
re-checks the flag after its wait.  A `program_change`, whose dispatch is
not guarded by the flag, can still be forwarded after the flag is set: in
the exhibited run on `pcFile` the flag is already on at the dispatch check
of iteration 0 (though not yet at its loop-top check) and the program change
is forwarded anyway. -/
theorem claim_C10 (m : MidiFile) (factor : ℚ) (flags : ℕ → MuteFlags)
    (stopTop stopDisp : ℕ → Bool) (i : ℕ)
    (hTD : ∀ j, stopTop j = true → stopDisp j = true)
    (hDT : ∀ j, stopDisp j = true → stopTop (j + 1) = true)
    (hset : stopDisp i = true) :
    (∀ j, i ≤ j →
      ∀ c ∈ ((playThread m factor flags stopTop stopDisp).getD j dOut).2,
        SinkCall.isNote c = false) ∧
    (playThread pcFile 1 noMute stopTopEx stopDispEx =
        [(0, [SinkCall.program_change 0 5])] ∧
      stopTopEx 0 = false ∧ stopDispEx 0 = true) := by
  constructor
  · intro j hij c hc
    exact playIterStop flags stopTop stopDisp factor i hTD hDT hset (midiIter m) 0 j
      (by omega) c hc
  · refine ⟨?_, rfl, rfl⟩
    simp [playThread, playIter, midiIter, midiIterGo, pcFile, callsFor, stopTopEx,
      stopDispEx, noMute, pyWait, tick2second]

/-- Witness for C10: in the exhibited stopped run, the program change is
still forwarded at iteration 0 and it is not a note call. -/
theorem claim_C10_witness :
    SinkCall.isNote (SinkCall.program_change 0 5) = false ∧
      ((playThread pcFile 1 noMute stopTopEx stopDispEx).getD 0 dOut).2 =
        [SinkCall.program_change 0 5] := by
  have h := claim_C10 pcFile 1 noMute stopTopEx stopDispEx 0
    (fun j hj => rfl) (fun j hj => by simp [stopTopEx]) rfl
  have h2 := h.2.1
  refine ⟨?_, ?_⟩
  · exact h.1 0 (Nat.le_refl 0) (SinkCall.program_change 0 5)
      (by rw [h2]; simp [dOut])
  · rw [h2]
    simp [dOut]

end CaminaDrummer
